import Mathlib

/-!
Verification of the theme-preference subsystem: the in-memory pub/sub
preferences store (`src/lib/preferences-store.ts`), the cookie codec and DOM
theme application helpers (`theme-utils`, found in `tailwind.config.ts`), and
the `PreferencesProvider` hydration component.

The TypeScript code is shallowly embedded: mutable class state becomes explicit
state passing, the DOM root element and the browser cookie jar become explicit
structures, and the order of side effects inside a callback is made observable
through an explicit effect trace appended in source order.
-/

/-! ## Data model (`theme.ts`) -/

/-- `type ThemeMode = "light" | "dark"`. -/
inductive ThemeMode where
  | light
  | dark
  deriving DecidableEq, Repr

/-- `type ThemePreset = "default" | "brutalist" | "soft-pop" | "tangerine"`. -/
inductive ThemePreset where
  | defaultPreset
  | brutalist
  | softPop
  | tangerine
  deriving DecidableEq, Repr

/-- `interface ThemePreferences { mode: ThemeMode; preset: ThemePreset }`. -/
structure ThemePreferences where
  mode : ThemeMode
  preset : ThemePreset
  deriving DecidableEq, Repr

/-- `DEFAULT_THEME_PREFERENCES = { mode: "light", preset: "default" }`. -/
def DEFAULT_THEME_PREFERENCES : ThemePreferences :=
  { mode := ThemeMode.light, preset := ThemePreset.defaultPreset }

/-- The TypeScript literal strings backing `ThemeMode`, as character lists. -/
def modeToString : ThemeMode → List Char
  | ThemeMode.light => "light".data
  | ThemeMode.dark => "dark".data

/-- The TypeScript literal strings backing `ThemePreset`, as character lists. -/
def presetToString : ThemePreset → List Char
  | ThemePreset.defaultPreset => "default".data
  | ThemePreset.brutalist => "brutalist".data
  | ThemePreset.softPop => "soft-pop".data
  | ThemePreset.tangerine => "tangerine".data

/-! ## Preferences store state transitions (`preferences-store.ts`) -/

/-- `Partial<ThemePreferences>`: each field optionally present. -/
structure ThemePatch where
  mode : Option ThemeMode := none
  preset : Option ThemePreset := none
  deriving DecidableEq, Repr

/-- The shallow merge `{ ...this.state, ...newState }` performed by
`PreferencesStore.setState`: a field present in the patch overrides the
current state, a field not present is unchanged. -/
def mergePrefs (s : ThemePreferences) (p : ThemePatch) : ThemePreferences :=
  { mode := p.mode.getD s.mode, preset := p.preset.getD s.preset }

/-- The patch `{ mode }` passed by `setThemeMode(mode)`. -/
def modePatch (m : ThemeMode) : ThemePatch := { mode := some m }

/-- The patch `{ preset }` passed by `setThemePreset(preset)`. -/
def presetPatch (p : ThemePreset) : ThemePatch := { preset := some p }

/-- The patch corresponding to `setTheme(preferences)`: spreading a full
`ThemePreferences` object sets both fields. -/
def fullPatch (p : ThemePreferences) : ThemePatch :=
  { mode := some p.mode, preset := some p.preset }

/-- One call in a sequence of `setThemeMode`/`setThemePreset` invocations. -/
inductive StoreCall where
  | setMode (m : ThemeMode)
  | setPreset (p : ThemePreset)
  deriving DecidableEq, Repr

/-- The state transition of a single wrapper call: both wrappers go through
`setState` with their one-field patch. -/
def applyCall (s : ThemePreferences) : StoreCall → ThemePreferences
  | StoreCall.setMode m => mergePrefs s (modePatch m)
  | StoreCall.setPreset p => mergePrefs s (presetPatch p)

/-- Running a whole sequence of wrapper calls against the store state. -/
def runCalls (s : ThemePreferences) (cs : List StoreCall) : ThemePreferences :=
  cs.foldl applyCall s

/-- The last mode argument occurring in a call sequence, if any. -/
def lastModeSet : List StoreCall → Option ThemeMode
  | [] => none
  | StoreCall.setMode m :: cs => some ((lastModeSet cs).getD m)
  | StoreCall.setPreset _ :: cs => lastModeSet cs

/-- The last preset argument occurring in a call sequence, if any. -/
def lastPresetSet : List StoreCall → Option ThemePreset
  | [] => none
  | StoreCall.setMode _ :: cs => lastPresetSet cs
  | StoreCall.setPreset p :: cs => some ((lastPresetSet cs).getD p)

/-- C1: after any sequence of `setThemeMode`/`setThemePreset` calls, the store
state holds, independently per field, the last value set (or the initial value
when the field was never set); the shallow merge leaves absent fields
unchanged, so setting one field never resets the other. -/
theorem store_last_write_wins (init : ThemePreferences) (cs : List StoreCall) :
    (runCalls init cs).mode = (lastModeSet cs).getD init.mode
    ∧ (runCalls init cs).preset = (lastPresetSet cs).getD init.preset
    ∧ (∀ s : ThemePreferences, ∀ t : ThemePatch,
        (t.mode = none → (mergePrefs s t).mode = s.mode)
        ∧ (t.preset = none → (mergePrefs s t).preset = s.preset)) := by
  refine ⟨?_, ?_, ?_⟩
  · induction cs generalizing init with
    | nil => rfl
    | cons c cs ih =>
      cases c with
      | setMode m =>
        simp only [runCalls, List.foldl_cons, lastModeSet, Option.getD_some]
        exact (ih (applyCall init (StoreCall.setMode m)))
      | setPreset p =>
        simp only [runCalls, List.foldl_cons, lastModeSet]
        exact (ih (applyCall init (StoreCall.setPreset p)))
  · induction cs generalizing init with
    | nil => rfl
    | cons c cs ih =>
      cases c with
      | setMode m =>
        simp only [runCalls, List.foldl_cons, lastPresetSet]
        exact (ih (applyCall init (StoreCall.setMode m)))
      | setPreset p =>
        simp only [runCalls, List.foldl_cons, lastPresetSet, Option.getD_some]
        exact (ih (applyCall init (StoreCall.setPreset p)))
  · intro s t
    constructor
    · intro h
      simp [mergePrefs, h]
    · intro h
      simp [mergePrefs, h]

/-- Witness for C1 at a concrete call sequence: starting from the defaults,
setting dark then tangerine then dark leaves mode dark and preset tangerine. -/
theorem store_last_write_wins_witness :
    (runCalls DEFAULT_THEME_PREFERENCES
        [StoreCall.setMode ThemeMode.dark,
         StoreCall.setPreset ThemePreset.tangerine,
         StoreCall.setMode ThemeMode.dark]).mode
      = (lastModeSet
          [StoreCall.setMode ThemeMode.dark,
           StoreCall.setPreset ThemePreset.tangerine,
           StoreCall.setMode ThemeMode.dark]).getD DEFAULT_THEME_PREFERENCES.mode
    ∧ (mergePrefs DEFAULT_THEME_PREFERENCES (modePatch ThemeMode.dark)).preset
        = DEFAULT_THEME_PREFERENCES.preset := by
  have h := store_last_write_wins DEFAULT_THEME_PREFERENCES
    [StoreCall.setMode ThemeMode.dark,
     StoreCall.setPreset ThemePreset.tangerine,
     StoreCall.setMode ThemeMode.dark]
  exact ⟨h.1, (h.2.2 DEFAULT_THEME_PREFERENCES (modePatch ThemeMode.dark)).2 rfl⟩

/-! ## Listener registry and notification pass (`preferences-store.ts`)

Listeners are identified by reference in JavaScript; the embedding identifies
them by a natural number. `subscribe` pushes the listener onto the array; the
returned closure looks the listener up with `indexOf` and removes it with
`splice(index, 1)` when found. -/

/-- `Array.prototype.indexOf`, restricted to found/not-found: index of the
first occurrence, if any. -/
def jsIndexOf (l : Nat) : List Nat → Option Nat
  | [] => none
  | x :: xs => if x = l then some 0 else (jsIndexOf l xs).map (· + 1)

/-- The unsubscribe closure returned by `subscribe`: look up the listener with
`indexOf`; if found (`index > -1`), `splice(index, 1)`; otherwise leave the
array alone. -/
def unsubscribeListener (l : Nat) (ls : List Nat) : List Nat :=
  match jsIndexOf l ls with
  | some i => ls.eraseIdx i
  | none => ls

/-- Removing via `indexOf` + `splice` is exactly erasing the first
occurrence. -/
theorem unsubscribeListener_eq_erase (l : Nat) (ls : List Nat) :
    unsubscribeListener l ls = ls.erase l := by
  induction ls with
  | nil => rfl
  | cons x xs ih =>
    by_cases hx : x = l
    · subst hx
      simp [unsubscribeListener, jsIndexOf, List.erase_cons]
    · rw [List.erase_cons_tail (by simpa using hx)]
      unfold unsubscribeListener jsIndexOf
      simp only [if_neg hx]
      cases h : jsIndexOf l xs with
      | none =>
        simp only [Option.map_none', unsubscribeListener, h] at ih ⊢
        rw [← ih]
      | some i =>
        simp only [Option.map_some', List.eraseIdx_cons_succ, unsubscribeListener, h] at ih ⊢
        rw [← ih]

/-- An effect assignment: when listener `l` is called during a notification
pass, `effect l` is the list of listeners it unsubscribes (in order) from
inside its callback. -/
def noEffect : Nat → List Nat := fun _ => []

/-- Applying, in order, the unsubscriptions a listener performs inside its
callback. -/
def applyUnsubs (ts : List Nat) (ls : List Nat) : List Nat :=
  ts.foldl (fun acc t => unsubscribeListener t acc) ls

/-- One notification pass: `this.listeners.forEach(listener => listener())`.
JavaScript `forEach` captures the length up front and walks indices `0 ..
len-1` against the live array, skipping indices that no longer exist; each
visited listener's callback may splice listeners out. Returns the final
listener array and the list of listeners notified, in order. `fuel` is the
captured length minus the index walked so far. -/
def notifyAux (effect : Nat → List Nat) : Nat → Nat → List Nat → List Nat × List Nat
  | 0, _, cur => (cur, [])
  | fuel + 1, k, cur =>
    if h : k < cur.length then
      let l := cur.get ⟨k, h⟩
      let r := notifyAux effect fuel (k + 1) (applyUnsubs (effect l) cur)
      (r.1, l :: r.2)
    else
      notifyAux effect fuel (k + 1) cur

/-- A full notification pass as fired by `setState`. -/
def notifyAll (effect : Nat → List Nat) (ls : List Nat) : List Nat × List Nat :=
  notifyAux effect ls.length 0 ls

/-- Unsubscribing never introduces a listener: absence is preserved. -/
theorem notMem_unsubscribeListener {l t : Nat} {ls : List Nat}
    (h : l ∉ ls) : l ∉ unsubscribeListener t ls := by
  rw [unsubscribeListener_eq_erase]
  intro hmem
  exact h (List.mem_of_mem_erase hmem)

/-- Absence of a listener is preserved by a whole callback's unsubscriptions. -/
theorem notMem_applyUnsubs {l : Nat} (ts : List Nat) {ls : List Nat}
    (h : l ∉ ls) : l ∉ applyUnsubs ts ls := by
  induction ts generalizing ls with
  | nil => exact h
  | cons t ts ih => exact ih (notMem_unsubscribeListener h)

/-- Once a listener is out of the live array, the rest of the notification
pass never calls it and never reintroduces it. -/
theorem notifyAux_notMem (effect : Nat → List Nat) (l : Nat) :
    ∀ fuel k cur, l ∉ cur →
      l ∉ (notifyAux effect fuel k cur).1 ∧ l ∉ (notifyAux effect fuel k cur).2 := by
  intro fuel
  induction fuel with
  | zero =>
    intro k cur h
    exact ⟨h, by simp [notifyAux]⟩
  | succ fuel ih =>
    intro k cur h
    unfold notifyAux
    by_cases hk : k < cur.length
    · simp only [dif_pos hk]
      have hvis : cur.get ⟨k, hk⟩ ∈ cur := List.get_mem cur k hk
      have hne : cur.get ⟨k, hk⟩ ≠ l := fun he => h (he ▸ hvis)
      have hrec := ih (k + 1) (applyUnsubs (effect (cur.get ⟨k, hk⟩)) cur)
        (notMem_applyUnsubs _ h)
      refine ⟨hrec.1, ?_⟩
      simp only [List.mem_cons, not_or]
      exact ⟨fun he => hne he.symm, hrec.2⟩
    · simp only [dif_neg hk]
      exact ih (k + 1) cur h

/-- C2: for a listener registered (at most) once, the returned unsubscribe
closure removes exactly that listener (no other registration's multiplicity
changes), invoking it a second time is a no-op, and once the listener is out
of the live array it receives no further notification — including the
remainder of a notification pass in which another listener's callback
unsubscribed it. -/
theorem unsubscribe_removes_listener (l : Nat) (ls : List Nat)
    (hcount : ls.count l ≤ 1) :
    l ∉ unsubscribeListener l ls
    ∧ unsubscribeListener l (unsubscribeListener l ls) = unsubscribeListener l ls
    ∧ (∀ x, x ≠ l → (unsubscribeListener l ls).count x = ls.count x)
    ∧ (∀ effect fuel k cur, l ∉ cur →
        l ∉ (notifyAux effect fuel k cur).2 ∧ l ∉ (notifyAux effect fuel k cur).1) := by
  have hout : l ∉ unsubscribeListener l ls := by
    rw [unsubscribeListener_eq_erase]
    intro hmem
    have hc := List.count_erase_self l ls
    have hpos : 0 < (ls.erase l).count l := List.count_pos_iff.mpr hmem
    omega
  refine ⟨hout, ?_, ?_, ?_⟩
  · rw [unsubscribeListener_eq_erase l (unsubscribeListener l ls)]
    exact List.erase_of_not_mem hout
  · intro x hx
    rw [unsubscribeListener_eq_erase]
    exact List.count_erase_of_ne hx ls
  · intro effect fuel k cur h
    exact ⟨(notifyAux_notMem effect l fuel k cur h).2,
           (notifyAux_notMem effect l fuel k cur h).1⟩

/-- An effect assignment in which listener 0 unsubscribes listener 1 from
inside its own callback. -/
def unsubOneEffect : Nat → List Nat := fun x => if x = 0 then [1] else []

/-- Witness for C2 on the two-listener array `[0, 1]`: unsubscribing listener
1 removes it, a second unsubscribe is a no-op, listener 0's registration is
untouched, and in a pass over `[0]` (listener 1 already removed) listener 1 is
never notified — also under the effect where listener 0 unsubscribes 1
mid-pass. -/
theorem unsubscribe_removes_listener_witness :
    (1 : Nat) ∉ unsubscribeListener 1 [0, 1]
    ∧ unsubscribeListener 1 (unsubscribeListener 1 [0, 1]) = unsubscribeListener 1 [0, 1]
    ∧ (unsubscribeListener 1 [0, 1]).count 0 = [0, 1].count 0
    ∧ (1 : Nat) ∉ (notifyAux unsubOneEffect 2 0 [0]).2 := by
  have h := unsubscribe_removes_listener 1 [0, 1] (by decide)
  exact ⟨h.1, h.2.1, h.2.2.1 0 (by decide),
         (h.2.2.2 unsubOneEffect 2 0 [0] (by decide)).1⟩

/-! ## Cookie codec (`theme-utils` in `tailwind.config.ts`)

Cookie text is modelled as `List Char`. The browser's `document.cookie` header
is the serialization of a cookie jar (name/value pairs); an assignment
`document.cookie = "name=value;expires=...;path=/"` replaces the cookie with
that name, or appends it. -/

/-- JavaScript `String.prototype.split` with a one-character separator. -/
def splitOnChar (sep : Char) : List Char → List (List Char)
  | [] => [[]]
  | c :: cs =>
    if c = sep then [] :: splitOnChar sep cs
    else
      match splitOnChar sep cs with
      | [] => [[c]]
      | s :: ss => (c :: s) :: ss

/-- `c.indexOf(nameEQ) === 0`: does the segment start with the given
characters? -/
def startsWithChars : List Char → List Char → Bool
  | _, [] => true
  | [], _ :: _ => false
  | c :: cs, p :: ps => if c = p then startsWithChars cs ps else false

/-- The body of the `for` loop in `getValueFromCookie`: trim leading spaces
(`while (c.charAt(0) === " ") c = c.substring(1)`), return the remainder of
the first segment starting with `nameEQ`. -/
def scanCookieSegments (nameEQ : List Char) : List (List Char) → Option (List Char)
  | [] => none
  | c :: rest =>
    let t := c.dropWhile (· = ' ')
    if startsWithChars t nameEQ then some (t.drop nameEQ.length)
    else scanCookieSegments nameEQ rest

/-- `getValueFromCookie(name)`: `null` when no document context exists
(`typeof document === "undefined"`), otherwise a linear scan of
`document.cookie.split(";")` for the first segment whose trimmed form starts
with `name + "="`. -/
def getValueFromCookie (docCookie : Option (List Char)) (name : List Char) :
    Option (List Char) :=
  match docCookie with
  | none => none
  | some cookie => scanCookieSegments (name ++ "=".data) (splitOnChar ';' cookie)

/-- A browser cookie jar: name/value pairs in insertion order. -/
abbrev CookieJar := List (List Char × List Char)

/-- The effect of `setValueToCookie(name, value)` on the jar: the browser
replaces a cookie with the same name, otherwise appends the new one (expiry
and path are not modelled — the subsystem never reads them back). -/
def setCookieJar (name value : List Char) (jar : CookieJar) : CookieJar :=
  if jar.any (fun e => e.1 == name) then
    jar.map (fun e => if e.1 == name then (name, value) else e)
  else jar ++ [(name, value)]

/-- The `document.cookie` header the browser presents for a jar:
`"n1=v1; n2=v2; ..."`. -/
def serializeCookieJar : CookieJar → List Char
  | [] => []
  | [e] => e.1 ++ '=' :: e.2
  | e :: rest => e.1 ++ '=' :: e.2 ++ ';' :: ' ' :: serializeCookieJar rest

/-- The `"theme-mode"` cookie name. -/
def themeModeCookie : List Char := "theme-mode".data

/-- The `"theme-preset"` cookie name. -/
def themePresetCookie : List Char := "theme-preset".data

/-- `saveThemePreferences(preferences)`: writes the mode cookie, then the
preset cookie. -/
def saveThemePreferences (p : ThemePreferences) (jar : CookieJar) : CookieJar :=
  setCookieJar themePresetCookie (presetToString p.preset)
    (setCookieJar themeModeCookie (modeToString p.mode) jar)

/-- JavaScript `x || d` on a nullable string: `null` and the empty string are
falsy and fall back to the default. -/
def jsOr (x : Option (List Char)) (d : List Char) : List Char :=
  match x with
  | none => d
  | some s => if s = [] then d else s

/-- The value `loadThemePreferences` actually returns: the raw cookie strings
(the source casts them with `as ThemeMode` / `as ThemePreset` without
validation). -/
structure RawThemePreferences where
  mode : List Char
  preset : List Char
  deriving DecidableEq, Repr

/-- `loadThemePreferences()`: read both cookies, defaulting to `"light"` /
`"default"` via `||`. -/
def loadThemePreferences (docCookie : Option (List Char)) : RawThemePreferences :=
  { mode := jsOr (getValueFromCookie docCookie themeModeCookie) "light".data,
    preset := jsOr (getValueFromCookie docCookie themePresetCookie) "default".data }

/-- The raw string form of a valid `ThemePreferences` value: what deep
equality with `p` means on the wire. -/
def encodePrefs (p : ThemePreferences) : RawThemePreferences :=
  { mode := modeToString p.mode, preset := presetToString p.preset }

/-- A jar with an unrelated cookie and a stale theme-mode cookie, used to
check that saving overwrites rather than duplicates. -/
def staleJar : CookieJar :=
  [("a".data, "1".data), (themeModeCookie, "dark".data)]

/-- If no segment of the header starts (after trimming leading spaces) with
`name + "="`, the scan returns `none`. -/
theorem scanCookieSegments_eq_none (nameEQ : List Char) :
    ∀ segs : List (List Char),
      (∀ seg ∈ segs, startsWithChars (seg.dropWhile (· = ' ')) nameEQ = false) →
      scanCookieSegments nameEQ segs = none := by
  intro segs
  induction segs with
  | nil => intro _; rfl
  | cons c rest ih =>
    intro h
    unfold scanCookieSegments
    simp only [h c (List.mem_cons_self c rest), if_false]
    exact ih fun seg hs => h seg (List.mem_cons_of_mem c hs)

/-- C3: for every valid `ThemePreferences` value, saving to the cookie jar and
reading the resulting `document.cookie` header back gives a value deep-equal
to the original — both from an empty jar and from a jar already holding an
unrelated cookie and a stale theme cookie; the raw string encoding is
injective on the valid domain, so deep equality of the raw form determines
the original value. -/
theorem save_load_round_trip (p : ThemePreferences) :
    loadThemePreferences (some (serializeCookieJar (saveThemePreferences p [])))
      = encodePrefs p
    ∧ loadThemePreferences (some (serializeCookieJar (saveThemePreferences p staleJar)))
      = encodePrefs p
    ∧ (∀ q : ThemePreferences, encodePrefs q = encodePrefs p → q = p) := by
  obtain ⟨m, pr⟩ := p
  refine ⟨?_, ?_, ?_⟩
  · cases m <;> cases pr <;> decide
  · cases m <;> cases pr <;> decide
  · intro q hq
    obtain ⟨qm, qp⟩ := q
    revert hq
    cases m <;> cases pr <;> cases qm <;> cases qp <;> decide

/-- The cookie header from the spec's worked example, with uneven spacing
around the separators. -/
def exampleCookieHeader : List Char :=
  "a=1; theme-mode=dark;theme-preset=tangerine".data

/-- C4: `getValueFromCookie` splits on `;`, trims leading spaces, and returns
the first match: on the spec's example header it finds `dark` and `tangerine`
regardless of spacing; it returns `null` when the named cookie is absent from
a header containing other cookies (both on a concrete header and in general,
whenever no trimmed segment starts with `name + "="`); and it returns `null`
when no document context exists. -/
theorem getValueFromCookie_spec (name : List Char) :
    getValueFromCookie none name = none
    ∧ getValueFromCookie (some exampleCookieHeader) themeModeCookie
        = some "dark".data
    ∧ getValueFromCookie (some exampleCookieHeader) themePresetCookie
        = some "tangerine".data
    ∧ getValueFromCookie (some "a=1; b=2".data) themeModeCookie = none
    ∧ (∀ hdr : List Char,
        (∀ seg ∈ splitOnChar ';' hdr,
          startsWithChars (seg.dropWhile (· = ' ')) (name ++ "=".data) = false) →
        getValueFromCookie (some hdr) name = none) := by
  refine ⟨rfl, by decide, by decide, by decide, ?_⟩
  intro hdr h
  unfold getValueFromCookie
  exact scanCookieSegments_eq_none (name ++ "=".data) (splitOnChar ';' hdr) h

/-- Witness for C4 at the concrete name `theme-mode` and the header
`"a=1; b=2"`: the hypothesis of the general absence clause holds there and
the lookup indeed returns `null`. -/
theorem getValueFromCookie_spec_witness :
    getValueFromCookie none themeModeCookie = none
    ∧ getValueFromCookie (some "a=1; b=2".data) themeModeCookie = none := by
  have h := getValueFromCookie_spec themeModeCookie
  exact ⟨h.1, h.2.2.2.2 "a=1; b=2".data (by decide)⟩

/-! ## DOM theme application (`theme-utils` in `tailwind.config.ts`)

The root document element is modelled by its class list (a `DOMTokenList`,
here a token list) and its `data-theme-preset` attribute. -/

/-- The root document element state the subsystem touches. -/
structure RootElement where
  classes : List (List Char)
  dataThemePreset : Option (List Char)
  deriving DecidableEq, Repr

/-- The `"dark"` class token. -/
def darkClass : List Char := "dark".data

/-- `classList.add(token)`: appends the token unless already present. -/
def classListAdd (tok : List Char) (cls : List (List Char)) : List (List Char) :=
  if tok ∈ cls then cls else cls ++ [tok]

/-- `classList.remove(token)`: removes the token. -/
def classListRemove (tok : List Char) (cls : List (List Char)) : List (List Char) :=
  cls.filter (fun c => c ≠ tok)

/-- `updateThemeMode(mode)`: `html.classList.add("dark")` for dark,
`html.classList.remove("dark")` for light. -/
def updateThemeMode (m : ThemeMode) (e : RootElement) : RootElement :=
  match m with
  | ThemeMode.dark => { e with classes := classListAdd darkClass e.classes }
  | ThemeMode.light => { e with classes := classListRemove darkClass e.classes }

/-- `updateThemePreset(preset)`:
`html.setAttribute("data-theme-preset", preset)`. -/
def updateThemePreset (p : ThemePreset) (e : RootElement) : RootElement :=
  { e with dataThemePreset := some (presetToString p) }

/-- `updateTheme(preferences)`: mode first, then preset. -/
def updateTheme (prefs : ThemePreferences) (e : RootElement) : RootElement :=
  updateThemePreset prefs.preset (updateThemeMode prefs.mode e)

/-- Adding a token makes it a member of the class list. -/
theorem mem_classListAdd (tok : List Char) (cls : List (List Char)) :
    tok ∈ classListAdd tok cls := by
  unfold classListAdd
  by_cases h : tok ∈ cls
  · simp [h]
  · simp [h]

/-- Adding a token twice is the same as adding it once. -/
theorem classListAdd_idem (tok : List Char) (cls : List (List Char)) :
    classListAdd tok (classListAdd tok cls) = classListAdd tok cls := by
  unfold classListAdd
  by_cases h : tok ∈ cls
  · simp [h]
  · simp [h]

/-- A removed token is no longer a member of the class list. -/
theorem not_mem_classListRemove (tok : List Char) (cls : List (List Char)) :
    tok ∉ classListRemove tok cls := by
  intro hmem
  have h := (List.mem_filter.mp hmem).2
  simp at h

/-- Removing a token twice is the same as removing it once. -/
theorem classListRemove_idem (tok : List Char) (cls : List (List Char)) :
    classListRemove tok (classListRemove tok cls) = classListRemove tok cls :=
  List.filter_eq_self.mpr fun _ ha => (List.mem_filter.mp ha).2

/-- C6: after `updateTheme(p)` the root element carries the `dark` class iff
`p.mode` is dark (it is absent for light), always carries
`data-theme-preset = p.preset`, and applying the same update again leaves the
root element unchanged. -/
theorem updateTheme_dom_contract (p : ThemePreferences) (e : RootElement) :
    (darkClass ∈ (updateTheme p e).classes ↔ p.mode = ThemeMode.dark)
    ∧ (updateTheme p e).dataThemePreset = some (presetToString p.preset)
    ∧ updateTheme p (updateTheme p e) = updateTheme p e := by
  obtain ⟨m, pr⟩ := p
  cases m with
  | dark =>
    refine ⟨?_, rfl, ?_⟩
    · exact ⟨fun _ => rfl, fun _ => mem_classListAdd darkClass e.classes⟩
    · simp only [updateTheme, updateThemePreset, updateThemeMode]
      rw [classListAdd_idem]
  | light =>
    refine ⟨?_, rfl, ?_⟩
    · exact ⟨fun hmem => absurd hmem (not_mem_classListRemove darkClass e.classes),
             fun h => nomatch h⟩
    · simp only [updateTheme, updateThemePreset, updateThemeMode]
      rw [classListRemove_idem]

/-! ## Provider session model (`PreferencesProvider`)

The per-page-session behavior of `PreferencesProvider`: the module-level store
singleton, the provider's React state (`preferences`, `isHydrated`), the
document root element and the cookie jar, all threaded explicitly. Side
effects are additionally logged to a trace, in the order the source performs
them, so ordering claims are observable. -/

/-- One logged side effect of the subsystem. -/
inductive SessionEffect where
  | storeSet (p : ThemePreferences)
  | domUpdate (p : ThemePreferences)
  | cookieSave (p : ThemePreferences)
  | setHydrated (b : Bool)
  deriving DecidableEq, Repr

/-- The whole mutable state a page session touches. -/
structure SessionState where
  storeState : ThemePreferences
  providerPrefs : ThemePreferences
  isHydrated : Bool
  subscribed : Bool
  dom : RootElement
  jar : CookieJar
  trace : List SessionEffect
  deriving DecidableEq, Repr

/-- The provider's subscription callback:
`const newPreferences = preferencesStore.getState(); setPreferences(...);
updateTheme(...); saveThemePreferences(...);` — in that order. -/
def providerCallback (s : SessionState) : SessionState :=
  let p := s.storeState
  { s with
    providerPrefs := p,
    dom := updateTheme p s.dom,
    jar := saveThemePreferences p s.jar,
    trace := s.trace ++ [SessionEffect.domUpdate p, SessionEffect.cookieSave p] }

/-- `PreferencesStore.setState`: merge the patch, replace the state, then
synchronously notify every registered subscriber — unconditionally, with no
change detection. In a session the provider's callback is the registered
subscriber once `subscribed` holds. -/
def storeSetState (patch : ThemePatch) (s : SessionState) : SessionState :=
  let merged := mergePrefs s.storeState patch
  let s1 := { s with
    storeState := merged,
    trace := s.trace ++ [SessionEffect.storeSet merged] }
  if s1.subscribed then providerCallback s1 else s1

/-- The provider's mount effect, in source order:
`preferencesStore.setTheme(initialPreferences); setPreferences(...);
updateTheme(...); setIsHydrated(true); preferencesStore.subscribe(...)`. -/
def mountEffect (init : ThemePreferences) (s : SessionState) : SessionState :=
  let s1 := storeSetState (fullPatch init) s
  let s2 := { s1 with providerPrefs := init }
  let s3 := { s2 with
    dom := updateTheme init s2.dom,
    trace := s2.trace ++ [SessionEffect.domUpdate init] }
  let s4 := { s3 with
    isHydrated := true,
    trace := s3.trace ++ [SessionEffect.setHydrated true] }
  { s4 with subscribed := true }

/-- An externally triggered event during a session. -/
inductive SessionEvent where
  | call (c : StoreCall)
  | setFull (p : ThemePreferences)
  | remount (init : ThemePreferences)
  deriving DecidableEq, Repr

/-- One session step. -/
def sessionStep (s : SessionState) : SessionEvent → SessionState
  | SessionEvent.call (StoreCall.setMode m) => storeSetState (modePatch m) s
  | SessionEvent.call (StoreCall.setPreset p) => storeSetState (presetPatch p) s
  | SessionEvent.setFull p => storeSetState (fullPatch p) s
  | SessionEvent.remount init => mountEffect init s

/-- Running a sequence of session events. -/
def runSession (s : SessionState) (evs : List SessionEvent) : SessionState :=
  evs.foldl sessionStep s

/-- The session state before the mount effect has run: the module-level store
holds the defaults, the provider's `useState` holds the server-supplied
initial preferences, `isHydrated` is false and nothing is subscribed. -/
def initialSession (init : ThemePreferences) (d : RootElement) (j : CookieJar) :
    SessionState :=
  { storeState := DEFAULT_THEME_PREFERENCES,
    providerPrefs := init,
    isHydrated := false,
    subscribed := false,
    dom := d,
    jar := j,
    trace := [] }

/-- The render guard: `if (!isHydrated) return <div visibility:hidden>...`,
so children are visibly rendered exactly when `isHydrated` holds. -/
def renderVisible (s : SessionState) : Bool := s.isHydrated

/-- The context value the provider renders: present only in the hydrated
branch — the hidden branch renders children without a provider. -/
def providedContext (s : SessionState) : Option ThemePreferences :=
  if s.isHydrated then some s.providerPrefs else none

/-- The error text thrown by the context hook. -/
def usePreferencesMessage : List Char :=
  "usePreferences must be used within a PreferencesProvider".data

/-- The `usePreferences` context hook: `useContext` yields `undefined` with no
provider above, and the hook then throws instead of returning defaults. -/
def usePreferences (ctx : Option ThemePreferences) :
    Except (List Char) ThemePreferences :=
  match ctx with
  | none => Except.error usePreferencesMessage
  | some v => Except.ok v

/-- `toggleTheme`: read the provider's `preferences.mode`, flip it, and call
`setThemeMode` with the result. -/
def toggleTheme (s : SessionState) : SessionState :=
  let newMode :=
    if s.providerPrefs.mode = ThemeMode.light then ThemeMode.dark else ThemeMode.light
  storeSetState (modePatch newMode) s

/-- What one `setState` does once the provider is subscribed: merge, replace,
then run the provider callback — store mutation, provider state, DOM update,
cookie save, in source order. -/
theorem storeSetState_subscribed (patch : ThemePatch) (s : SessionState)
    (hsub : s.subscribed = true) :
    storeSetState patch s =
      { s with
        storeState := mergePrefs s.storeState patch,
        providerPrefs := mergePrefs s.storeState patch,
        dom := updateTheme (mergePrefs s.storeState patch) s.dom,
        jar := saveThemePreferences (mergePrefs s.storeState patch) s.jar,
        trace := s.trace ++
          [SessionEffect.storeSet (mergePrefs s.storeState patch),
           SessionEffect.domUpdate (mergePrefs s.storeState patch),
           SessionEffect.cookieSave (mergePrefs s.storeState patch)] } := by
  unfold storeSetState providerCallback
  simp [hsub]

/-- An empty root element, for concrete witnesses. -/
def emptyRoot : RootElement := { classes := [], dataThemePreset := none }

/-- C5: with the provider live (subscribed, its snapshot in sync with the
store), one `toggleTheme` flips the mode — light to dark, dark to light —
and leaves the preset untouched; calling it twice restores the store state,
mode included, exactly. -/
theorem toggleTheme_involutive (s : SessionState)
    (hsub : s.subscribed = true) (hsync : s.providerPrefs = s.storeState) :
    (toggleTheme s).storeState.mode
      = (if s.storeState.mode = ThemeMode.light then ThemeMode.dark else ThemeMode.light)
    ∧ (toggleTheme s).storeState.mode ≠ s.storeState.mode
    ∧ (toggleTheme s).storeState.preset = s.storeState.preset
    ∧ (toggleTheme (toggleTheme s)).storeState = s.storeState := by
  cases s with
  | mk st pp hy sub dm jr tr =>
    dsimp only at hsub hsync
    subst hsub
    subst hsync
    obtain ⟨m, pr⟩ := pp
    cases m with
    | light =>
      refine ⟨rfl, ?_, rfl, rfl⟩
      intro h
      exact nomatch h
    | dark =>
      refine ⟨rfl, ?_, rfl, rfl⟩
      intro h
      exact nomatch h

/-- Witness for C5 on a live session at the default preferences: toggling
flips light to dark and a double toggle restores the state. -/
theorem toggleTheme_involutive_witness :
    (toggleTheme (mountEffect DEFAULT_THEME_PREFERENCES
        (initialSession DEFAULT_THEME_PREFERENCES emptyRoot []))).storeState.mode
      = ThemeMode.dark
    ∧ (toggleTheme (toggleTheme (mountEffect DEFAULT_THEME_PREFERENCES
        (initialSession DEFAULT_THEME_PREFERENCES emptyRoot [])))).storeState
      = DEFAULT_THEME_PREFERENCES := by
  have h := toggleTheme_involutive
    (mountEffect DEFAULT_THEME_PREFERENCES
      (initialSession DEFAULT_THEME_PREFERENCES emptyRoot []))
    rfl rfl
  exact ⟨h.1, h.2.2.2⟩

/-- C7: rendering a consumer with no provider above it makes `useContext`
return `undefined` and the hook throw; the hidden pre-ready render branch also
mounts children outside the provider, so consuming before `ready` throws as
well — never a silent default. With a provider value present the hook returns
it. -/
theorem usePreferences_throws_outside_provider (s : SessionState)
    (h : s.isHydrated = false) :
    usePreferences none = Except.error usePreferencesMessage
    ∧ usePreferences (providedContext s) = Except.error usePreferencesMessage
    ∧ (∀ v, usePreferences (some v) = Except.ok v) := by
  refine ⟨rfl, ?_, fun v => rfl⟩
  simp [providedContext, h, usePreferences]

/-- Witness for C7 at the concrete un-hydrated initial session. -/
theorem usePreferences_throws_outside_provider_witness :
    usePreferences none = Except.error usePreferencesMessage
    ∧ usePreferences
        (providedContext (initialSession DEFAULT_THEME_PREFERENCES emptyRoot []))
        = Except.error usePreferencesMessage
    ∧ usePreferences (some DEFAULT_THEME_PREFERENCES)
        = Except.ok DEFAULT_THEME_PREFERENCES := by
  have h := usePreferences_throws_outside_provider
    (initialSession DEFAULT_THEME_PREFERENCES emptyRoot []) rfl
  exact ⟨h.1, h.2.1, h.2.2 DEFAULT_THEME_PREFERENCES⟩

/-- C8: on every store state change with the provider subscribed, the logged
effect order is store mutation, then DOM update, then cookie persistence —
the DOM is updated with the new preferences strictly before they are saved,
and the resulting document and jar reflect exactly that new value. -/
theorem dom_update_before_cookie_save (patch : ThemePatch) (s : SessionState)
    (hsub : s.subscribed = true) :
    (storeSetState patch s).trace
      = s.trace ++
        [SessionEffect.storeSet (mergePrefs s.storeState patch),
         SessionEffect.domUpdate (mergePrefs s.storeState patch),
         SessionEffect.cookieSave (mergePrefs s.storeState patch)]
    ∧ (storeSetState patch s).dom
        = updateTheme (mergePrefs s.storeState patch) s.dom
    ∧ (storeSetState patch s).jar
        = saveThemePreferences (mergePrefs s.storeState patch) s.jar := by
  rw [storeSetState_subscribed patch s hsub]
  exact ⟨rfl, rfl, rfl⟩

/-- Witness for C8: setting dark mode on a freshly mounted session logs the
store set, the DOM update and the cookie save in that order. -/
theorem dom_update_before_cookie_save_witness :
    (storeSetState (modePatch ThemeMode.dark)
        (mountEffect DEFAULT_THEME_PREFERENCES
          (initialSession DEFAULT_THEME_PREFERENCES emptyRoot []))).trace
      = (mountEffect DEFAULT_THEME_PREFERENCES
          (initialSession DEFAULT_THEME_PREFERENCES emptyRoot [])).trace ++
        [SessionEffect.storeSet
          ⟨ThemeMode.dark, ThemePreset.defaultPreset⟩,
         SessionEffect.domUpdate
          ⟨ThemeMode.dark, ThemePreset.defaultPreset⟩,
         SessionEffect.cookieSave
          ⟨ThemeMode.dark, ThemePreset.defaultPreset⟩] := by
  have h := dom_update_before_cookie_save (modePatch ThemeMode.dark)
    (mountEffect DEFAULT_THEME_PREFERENCES
      (initialSession DEFAULT_THEME_PREFERENCES emptyRoot [])) rfl
  exact h.1

/-- `setState` never touches the hydration flag. -/
theorem storeSetState_isHydrated (patch : ThemePatch) (s : SessionState) :
    (storeSetState patch s).isHydrated = s.isHydrated := by
  unfold storeSetState providerCallback
  by_cases h : s.subscribed <;> simp [h]

/-- The mount effect always ends hydrated. -/
theorem mountEffect_isHydrated (init : ThemePreferences) (s : SessionState) :
    (mountEffect init s).isHydrated = true := rfl

/-- No session step un-hydrates a hydrated session. -/
theorem sessionStep_preserves_hydrated (s : SessionState) (ev : SessionEvent)
    (h : s.isHydrated = true) : (sessionStep s ev).isHydrated = true := by
  cases ev with
  | call c =>
    cases c with
    | setMode m => rw [sessionStep, storeSetState_isHydrated]; exact h
    | setPreset p => rw [sessionStep, storeSetState_isHydrated]; exact h
  | setFull p => rw [sessionStep, storeSetState_isHydrated]; exact h
  | remount init => exact mountEffect_isHydrated init s

/-- Hydration is stable under any remaining event sequence. -/
theorem runSession_preserves_hydrated (evs : List SessionEvent) :
    ∀ s : SessionState, s.isHydrated = true → (runSession s evs).isHydrated = true := by
  induction evs with
  | nil => intro s h; exact h
  | cons ev evs ih =>
    intro s h
    exact ih (sessionStep s ev) (sessionStep_preserves_hydrated s ev h)

/-- C9: the per-session hydration machine. Before the mount effect the
session is not visibly rendered; the mount effect seeds the store with the
server-supplied initial preferences (not the defaults), applies them to the
DOM — the trace shows the DOM update strictly before the transition to ready
— and only then reveals the children; and from a hydrated state no sequence
of further events ever returns the session to the hidden state. -/
theorem hydration_state_machine (init : ThemePreferences) (d : RootElement)
    (j : CookieJar) :
    renderVisible (initialSession init d j) = false
    ∧ (mountEffect init (initialSession init d j)).storeState = init
    ∧ (mountEffect init (initialSession init d j)).providerPrefs = init
    ∧ renderVisible (mountEffect init (initialSession init d j)) = true
    ∧ (mountEffect init (initialSession init d j)).dom = updateTheme init d
    ∧ (mountEffect init (initialSession init d j)).trace
        = [SessionEffect.storeSet init, SessionEffect.domUpdate init,
           SessionEffect.setHydrated true]
    ∧ (∀ evs : List SessionEvent,
        (runSession (mountEffect init (initialSession init d j)) evs).isHydrated
          = true) := by
  refine ⟨rfl, rfl, rfl, rfl, rfl, rfl, ?_⟩
  intro evs
  exact runSession_preserves_hydrated evs (mountEffect init (initialSession init d j))
    (mountEffect_isHydrated init (initialSession init d j))

/-- Witness for C9 at concrete dark/tangerine initial preferences and a
concrete event sequence following the mount. -/
theorem hydration_state_machine_witness :
    renderVisible (initialSession ⟨ThemeMode.dark, ThemePreset.tangerine⟩ emptyRoot [])
      = false
    ∧ (mountEffect ⟨ThemeMode.dark, ThemePreset.tangerine⟩
        (initialSession ⟨ThemeMode.dark, ThemePreset.tangerine⟩ emptyRoot [])).storeState
      = ⟨ThemeMode.dark, ThemePreset.tangerine⟩
    ∧ (runSession
        (mountEffect ⟨ThemeMode.dark, ThemePreset.tangerine⟩
          (initialSession ⟨ThemeMode.dark, ThemePreset.tangerine⟩ emptyRoot []))
        [SessionEvent.call (StoreCall.setMode ThemeMode.light),
         SessionEvent.remount ⟨ThemeMode.dark, ThemePreset.tangerine⟩]).isHydrated
      = true := by
  have h := hydration_state_machine ⟨ThemeMode.dark, ThemePreset.tangerine⟩ emptyRoot []
  exact ⟨h.1, h.2.1,
    h.2.2.2.2.2.2 [SessionEvent.call (StoreCall.setMode ThemeMode.light),
                   SessionEvent.remount ⟨ThemeMode.dark, ThemePreset.tangerine⟩]⟩

/-- A notification pass over listeners whose callbacks unsubscribe nothing
visits every remaining index in order and leaves the registry unchanged. -/
theorem notifyAux_noEffect (fuel : Nat) :
    ∀ k : Nat, ∀ cur : List Nat, cur.length ≤ k + fuel →
      notifyAux noEffect fuel k cur = (cur, cur.drop k) := by
  induction fuel with
  | zero =>
    intro k cur h
    unfold notifyAux
    rw [List.drop_eq_nil_of_le (by omega)]
  | succ fuel ih =>
    intro k cur h
    unfold notifyAux
    by_cases hk : k < cur.length
    · rw [dif_pos hk]
      dsimp only
      have happ : applyUnsubs (noEffect (cur.get ⟨k, hk⟩)) cur = cur := rfl
      rw [happ, ih (k + 1) cur (by omega)]
      rw [List.drop_eq_getElem_cons hk]
      rfl
    · rw [dif_neg hk]
      rw [ih (k + 1) cur (by omega)]
      rw [List.drop_eq_nil_of_le (by omega), List.drop_eq_nil_of_le (by omega)]

/-- `setState` notifies every registered listener, in registration order. -/
theorem notifyAll_noEffect (ls : List Nat) : notifyAll noEffect ls = (ls, ls) := by
  unfold notifyAll
  rw [notifyAux_noEffect ls.length 0 ls (by omega)]
  rw [List.drop_zero]

/-- C10: `setState` performs no change detection. Even when the merged state
is identical to the current state, a subscribed session still logs the store
set, a fresh DOM re-application and a cookie rewrite with the (unchanged)
preferences; and at the store level a notification pass reaches every
registered subscriber in registration order. -/
theorem setState_no_change_detection (patch : ThemePatch) (s : SessionState)
    (hsub : s.subscribed = true)
    (heq : mergePrefs s.storeState patch = s.storeState) :
    (storeSetState patch s).trace
      = s.trace ++
        [SessionEffect.storeSet s.storeState,
         SessionEffect.domUpdate s.storeState,
         SessionEffect.cookieSave s.storeState]
    ∧ (storeSetState patch s).dom = updateTheme s.storeState s.dom
    ∧ (storeSetState patch s).jar = saveThemePreferences s.storeState s.jar
    ∧ (∀ ls : List Nat, notifyAll noEffect ls = (ls, ls)) := by
  rw [storeSetState_subscribed patch s hsub, heq]
  exact ⟨rfl, rfl, rfl, notifyAll_noEffect⟩

/-- Witness for C10: re-setting light mode on a freshly mounted default
session — a no-op merge — still logs a DOM update and a cookie save, and a
pass over the registry `[0, 1, 2]` notifies 0, 1 and 2. -/
theorem setState_no_change_detection_witness :
    (storeSetState (modePatch ThemeMode.light)
        (mountEffect DEFAULT_THEME_PREFERENCES
          (initialSession DEFAULT_THEME_PREFERENCES emptyRoot []))).trace
      = (mountEffect DEFAULT_THEME_PREFERENCES
          (initialSession DEFAULT_THEME_PREFERENCES emptyRoot [])).trace ++
        [SessionEffect.storeSet DEFAULT_THEME_PREFERENCES,
         SessionEffect.domUpdate DEFAULT_THEME_PREFERENCES,
         SessionEffect.cookieSave DEFAULT_THEME_PREFERENCES]
    ∧ notifyAll noEffect [0, 1, 2] = ([0, 1, 2], [0, 1, 2]) := by
  have h := setState_no_change_detection (modePatch ThemeMode.light)
    (mountEffect DEFAULT_THEME_PREFERENCES
      (initialSession DEFAULT_THEME_PREFERENCES emptyRoot []))
    rfl rfl
  exact ⟨h.1, h.2.2.2 [0, 1, 2]⟩

/-- Witness for C3 at dark/tangerine: the round trip through the cookie
header reproduces the raw encoding, and the encoding pins down the value. -/
theorem save_load_round_trip_witness :
    loadThemePreferences
        (some (serializeCookieJar
          (saveThemePreferences ⟨ThemeMode.dark, ThemePreset.tangerine⟩ [])))
      = encodePrefs ⟨ThemeMode.dark, ThemePreset.tangerine⟩
    ∧ (⟨ThemeMode.dark, ThemePreset.tangerine⟩ : ThemePreferences)
      = ⟨ThemeMode.dark, ThemePreset.tangerine⟩ := by
  have h := save_load_round_trip ⟨ThemeMode.dark, ThemePreset.tangerine⟩
  exact ⟨h.1, h.2.2 ⟨ThemeMode.dark, ThemePreset.tangerine⟩ rfl⟩

/-- Witness for C6 at dark/brutalist on an empty root element: the dark class
is present and the preset attribute is set. -/
theorem updateTheme_dom_contract_witness :
    darkClass ∈ (updateTheme ⟨ThemeMode.dark, ThemePreset.brutalist⟩ emptyRoot).classes
    ∧ (updateTheme ⟨ThemeMode.dark, ThemePreset.brutalist⟩ emptyRoot).dataThemePreset
      = some (presetToString ThemePreset.brutalist) := by
  have h := updateTheme_dom_contract ⟨ThemeMode.dark, ThemePreset.brutalist⟩ emptyRoot
  exact ⟨h.1.mpr rfl, h.2.1⟩
